import Mathlib

/-!
Verification of the iAnchor repository (src/Anchor/anchor.py and
src/ianchor/samplers/__init__.py) against its natural-language
specification.

Shallow embedding conventions:
* Torch tensors of pixels are modelled as nested lists of rationals:
  an image is a list of rows, a row a list of pixels, a pixel a list of
  channel values.  Tensor layout permutations (`permute`, `unsqueeze`)
  only reorganize memory, so the abstract predict function consumes a
  batch of flattened images directly.
* `predict_fn` is an abstract function from a batch of images to a
  per-row score matrix, exactly the boundary the code assumes.
* `skimage.segmentation.quickshift` is an external library call; it is
  modelled as an opaque segmentation oracle passed in as a parameter
  (the spec itself treats segmentation as an opaque partitioning
  function).
* `torch.randint(0, 2, (n, f))` draws from an entropy source; the
  source is modelled as an explicit function `rand : Nat → Nat → Nat`
  whose value at (i, j) is reduced mod 2, matching the range [0, 2).
* Python exceptions are modelled with `Except` over an error type
  `PyErr` listing the exception classes relevant to the claims.
* Functions that issue predict calls also return the list of batches
  passed to `predict_fn`, so that model-query counts are provable.
-/

/-- Channel values of one pixel (e.g. RGB). -/
abbrev Pix := List ℚ

/-- A flattened image: its pixels in row-major order. -/
abbrev FlatImg := List Pix

/-- A 2-dimensional image: rows of pixels (shape H × W × C). -/
abbrev Img2D := List (List Pix)

/-- The predict-function boundary: a batch of images to a score matrix. -/
abbrev PredictFn := List FlatImg → List (List ℚ)

/-- Opaque segmentation oracle standing for `skimage.segmentation.quickshift`
with the fixed parameters of the source (kernel_size 4, max_dist 200,
ratio 0.2): maps an image to a per-pixel segment-id grid. -/
abbrev SegOracle := Img2D → List (List Nat)

/-- Python exception classes relevant to the claims.  `invalidInputError`
is the error class named by the specification; it does not occur anywhere
in the source code, which is what some claims are about. -/
inductive PyErr where
  | assertionError
  | frozenInstanceError
  | typeError
  | valueError
  | invalidInputError
deriving DecidableEq, Repr

/-- `class Tasktype(Enum)`: TABULAR, IMAGE, TEXT. -/
inductive Tasktype where
  | TABULAR
  | IMAGE
  | TEXT
deriving DecidableEq, Repr

/-- `input.shape[2]`: the channel count of the instance tensor.  A tensor
is rectangular, so the length of the first pixel is the third shape entry. -/
def shape2 (img : Img2D) : Nat := ((img.headD []).headD []).length

/-- Row-major flattening of an image, the pixel content that layout
permutations rearrange. -/
def flattenImg (img : Img2D) : FlatImg := img.flatten

/-- `torch.argmax` on a score vector: index of the first maximal value. -/
def idxOfMax (l : List ℚ) : Nat :=
  (l.enum.foldl (fun best p => if p.2 > best.2 then p else best) (0, l.headD 0)).1

/-- The pixels of `pix` lying in segment `u` (`self.sp_image[self.segments == spixel, :]`). -/
def segPixels (pix : FlatImg) (segs : List Nat) (u : Nat) : FlatImg :=
  ((pix.zip segs).filter (fun ps => ps.2 == u)).map Prod.fst

/-- `torch.mean(…, axis=0)` over a stack of 3-channel pixels: the
channel-wise mean. -/
def pixMean (sel : FlatImg) : Pix :=
  (List.range 3).map (fun c => (sel.map (fun p => p.getD c 0)).sum / (sel.length : ℚ))

/-- `class ImageSampler(Sampler)`: the attributes set in `__init__`. -/
structure ImageSampler where
  label : Nat
  segments : List (List Nat)
  n_features : Nat
  sp_image : FlatImg
  image : FlatImg
  predict_fn : PredictFn

/-- `ImageSampler.__init__(input, predict_fn)`:
`assert input.shape[2] == 3` (an `AssertionError` on failure), then
`self.label = torch.argmax(predict_fn(input.permute(2,0,1).unsqueeze(0))[0])`,
`self.segments = quickshift(...)`, `self.n_features = len(torch.unique(segments))`,
`self.sp_image` = the image with every pixel replaced by the channel-wise
mean of its segment (the source loops over the distinct segment ids and
replaces each segment by its mean over the untouched clone of `input`),
`self.image = input`, `self.predict_fn = predict_fn`.
The second component of the result lists the batches passed to
`predict_fn`: construction issues exactly one call, on the singleton
batch holding the original instance. -/
def ImageSampler.init (segment : SegOracle) (input : Img2D)
    (predict_fn : PredictFn) : Except PyErr ImageSampler × List (List FlatImg) :=
  if shape2 input = 3 then
    let flat := flattenImg input
    let scores := predict_fn [flat]
    let label := idxOfMax (scores.headD [])
    let segments := segment input
    let segsF := segments.flatten
    let nf := segsF.dedup.length
    let sp := (flat.zip segsF).map (fun ps => pixMean (segPixels flat segsF ps.2))
    (.ok ⟨label, segments, nf, sp, flat, predict_fn⟩, [[flat]])
  else
    (.error .assertionError, [])

/-- `ImageSampler.__generate_image(feature_mask)`: clone the original
image and overwrite, at every pixel whose segment id z satisfies
`feature_mask[z] == 0`, the pixel by the superpixel image's pixel.
A segment id outside the mask's index range is never overwritten, hence
the default 1 for the lookup. -/
def ImageSampler.generateImage (self : ImageSampler) (feature_mask : List Nat) : FlatImg :=
  ((self.image.zip self.sp_image).zip self.segments.flatten).map
    (fun pps => if feature_mask.getD pps.2 1 = 0 then pps.1.2 else pps.1.1)

/-- The `data` tensor of `ImageSampler.sample`:
`data = torch.randint(0, 2, (num_samples, self.n_features))` followed by
`data[:, present] = 1`.  Entry (i, j) is 1 when j is a present feature
and otherwise the entropy source's bit at (i, j). -/
def ImageSampler.sampleData (self : ImageSampler) (present : List Nat)
    (num_samples : Nat) (rand : Nat → Nat → Nat) : List (List Nat) :=
  (List.range num_samples).map (fun i =>
    (List.range self.n_features).map (fun j =>
      if j ∈ present then 1 else rand i j % 2))

/-- `samples = torch.stack([self.__generate_image(mask) for mask in data])`. -/
def ImageSampler.sampleBatch (self : ImageSampler) (present : List Nat)
    (num_samples : Nat) (rand : Nat → Nat → Nat) : List FlatImg :=
  (self.sampleData present num_samples rand).map self.generateImage

/-- `ImageSampler.sample(present, num_samples)` with full instrumentation:
returns the object state after the call (the method assigns no attribute,
so the state passes through unchanged), the returned triple
`(self.segments, data, labels)` where
`preds = self.predict_fn(samples.permute(0, 3, 1, 2))`,
`preds_max = torch.argmax(preds, axis=1)`,
`labels = (preds_max == self.label).int()`,
and the list of batches passed to `predict_fn` during the call. -/
def ImageSampler.sampleFull (self : ImageSampler) (present : List Nat)
    (num_samples : Nat) (rand : Nat → Nat → Nat) :
    ImageSampler × (List (List Nat) × List (List Nat) × List Nat) × List (List FlatImg) :=
  let data := self.sampleData present num_samples rand
  let samples := self.sampleBatch present num_samples rand
  let preds := self.predict_fn samples
  let preds_max := preds.map idxOfMax
  let labels := preds_max.map (fun m => if m = self.label then (1 : Nat) else 0)
  (self, (self.segments, data, labels), [samples])

/-- `ImageSampler.sample`: the triple the method returns. -/
def ImageSampler.sample (self : ImageSampler) (present : List Nat)
    (num_samples : Nat) (rand : Nat → Nat → Nat) :
    List (List Nat) × List (List Nat) × List Nat :=
  (self.sampleFull present num_samples rand).2.1

/-- `TabularSampler.sample`: the body is the ellipsis statement, so the
call returns Python's `None` whatever the arguments. -/
def TabularSampler.sample {α β : Type} (input : α) (predict_fn : α → β) : Option β :=
  none

/-- `TextSampler.sample`: the body is the ellipsis statement, so the
call returns Python's `None` whatever the arguments. -/
def TextSampler.sample {α β : Type} (input : α) (predict_fn : α → β) : Option β :=
  none

/-- A successfully constructed sampler instance.  Only `ImageSampler`
can ever be constructed: `TabularSampler` and `TextSampler` define no
`__init__` (and inherit none), so calling them with the factory's two
arguments raises `TypeError` before any instance exists. -/
inductive SamplerInst where
  | image (s : ImageSampler)

/-- A registered subclass constructor as the factory invokes it:
`cls.subclasses[type](input, predict_fn)`.  The `Nat` component counts
the predict calls the construction issued. -/
abbrev Ctor := Img2D → PredictFn → Except PyErr SamplerInst × Nat

/-- The `ImageSampler` constructor as registered in `Sampler.subclasses`. -/
def imageCtor (segment : SegOracle) : Ctor := fun input predict_fn =>
  let r := ImageSampler.init segment input predict_fn
  (r.1.map SamplerInst.image, r.2.length)

/-- The `TabularSampler` constructor: the class defines neither
`__init__` nor `__new__`, so `TabularSampler(input, predict_fn)` raises
`TypeError` (extra arguments to `object()`), issuing no predict call. -/
def tabularCtor : Ctor := fun _ _ => (.error .typeError, 0)

/-- The `TextSampler` constructor: same situation as `TabularSampler`,
`TextSampler(input, predict_fn)` raises `TypeError`. -/
def textCtor : Ctor := fun _ _ => (.error .typeError, 0)

/-- `Sampler.subclasses` of src/Anchor/anchor.py after the module is
loaded: `__init_subclass__` has registered the three subclasses under
their `type` class attribute. -/
def anchorRegistry (segment : SegOracle) : Tasktype → Option Ctor
  | .TABULAR => some tabularCtor
  | .IMAGE => some (imageCtor segment)
  | .TEXT => some textCtor

/-- `Sampler.create(type, input, predict_fn)` of src/Anchor/anchor.py:
raise `ValueError` when `type not in cls.subclasses`, otherwise return
`cls.subclasses[type](input, predict_fn)`.  Parameterized by the registry
so that the dispatch decision is stated for any registration state. -/
def Sampler.create (reg : Tasktype → Option Ctor) (t : Tasktype)
    (input : Img2D) (predict_fn : PredictFn) : Except PyErr SamplerInst × Nat :=
  match reg t with
  | none => (.error .valueError, 0)
  | some c => c input predict_fn

/-- `Sampler.create(type, input, predict_fn, task_specific)` of
src/ianchor/samplers/__init__.py: identical dispatch, but the registered
constructor additionally receives the unpacked `task_specific` mapping
(of opaque type π). -/
def IanchorSampler.create {π : Type}
    (reg : Tasktype → Option (Img2D → PredictFn → π → Except PyErr SamplerInst × Nat))
    (t : Tasktype) (input : Img2D) (predict_fn : PredictFn) (task_specific : π) :
    Except PyErr SamplerInst × Nat :=
  match reg t with
  | none => (.error .valueError, 0)
  | some c => c input predict_fn task_specific

/-- View an anchor.py registry as an ianchor registry whose constructors
ignore the task-specific mapping. -/
def liftReg {π : Type} (reg : Tasktype → Option Ctor) :
    Tasktype → Option (Img2D → PredictFn → π → Except PyErr SamplerInst × Nat) :=
  fun t => (reg t).map (fun c => fun input predict_fn _ => c input predict_fn)

/-- `@dataclass(frozen=True) class Anchor`: the fields the generated
`__init__` can set.  The `sampler` field is declared `field(init=False)`
and, the dataclass being frozen, can never be assigned, so no state for
it exists. -/
structure Anchor where
  tasktype : Tasktype
  verbose : Bool := false

/-- `Anchor.explain_instance(input, predict_fn)`:
`self.sampler = Sampler.create(self.tasktype, input, predict_fn)` — the
right-hand side is evaluated first (possibly raising, possibly issuing
predict calls), and then the attribute store on the frozen dataclass
raises `FrozenInstanceError`, so the following `__greedy_anchor` call is
unreachable and the method never returns normally.  The `Nat` component
counts the predict calls issued before the exception. -/
def Anchor.explain_instance (segment : SegOracle) (self : Anchor)
    (input : Img2D) (predict_fn : PredictFn) : Except PyErr Unit × Nat :=
  let r := Sampler.create (anchorRegistry segment) self.tasktype input predict_fn
  match r.1 with
  | .error e => (.error e, r.2)
  | .ok _ => (.error .frozenInstanceError, r.2)

/-- The keyword defaults in the signature of `Anchor.__greedy_anchor`. -/
structure GreedyAnchorSig where
  delta : ℚ
  epsilon : ℚ
  batch_size : Nat

/-- `def __greedy_anchor(sample_fn, delta=0.05, epsilon=0.1, batch_size=16)`:
the default configuration values, in signature order. -/
def greedyAnchorDefaults : GreedyAnchorSig :=
  ⟨0.05, 0.1, 16⟩

/-! ### Concrete instances used by witnesses and counterexamples -/

/-- A concrete segmentation oracle: two segments, one per row. -/
def segC : SegOracle := fun _ => [[0], [1]]

/-- A concrete predict function: constant scores favouring class 0. -/
def predictC : PredictFn := fun batch => batch.map (fun _ => [(1 : ℚ), 0])

/-- A concrete valid instance: 2 × 1 image with 3 channels. -/
def inputC : Img2D := [[[(1 : ℚ), 2, 3]], [[(4 : ℚ), 5, 6]]]

/-- A concrete malformed instance: 1 × 1 image with 4 channels. -/
def inputBad : Img2D := [[[(1 : ℚ), 2, 3, 4]]]

/-- A concrete entropy source. -/
def randC : Nat → Nat → Nat := fun i j => i + j

/-- The sampler state `ImageSampler.init` builds on the concrete inputs. -/
def stateC : ImageSampler :=
  match (ImageSampler.init segC inputC predictC).1 with
  | .ok s => s
  | .error _ => ⟨0, [], 0, [], [], fun _ => []⟩

example : (ImageSampler.init segC inputC predictC).1 = .ok stateC := rfl
example : stateC.label = 0 := rfl
example : stateC.n_features = 2 := rfl
example : stateC.segments = [[0], [1]] := rfl
example : (ImageSampler.sampleFull stateC [] 3 randC).2.1.1.length = 2 := rfl

/-! ### Helper lemmas -/

/-- Indexing a mapped range below its length evaluates the function. -/
lemma getD_map_range {α : Type} (f : Nat → α) {k j : Nat} (d : α) (h : j < k) :
    ((List.range k).map f).getD j d = f j := by
  rw [List.getD_eq_getElem?_getD, List.getElem?_map, List.getElem?_range h]
  rfl

/-- Indexing a mapped list below its length commutes with the function. -/
lemma getD_map_of_lt {α β : Type} (f : α → β) (l : List α) (i : Nat) (d : β) (e : α)
    (h : i < l.length) :
    (l.map f).getD i d = f (l.getD i e) := by
  rw [List.getD_eq_getElem?_getD, List.getElem?_map, List.getElem?_eq_getElem h,
    List.getD_eq_getElem?_getD, List.getElem?_eq_getElem h]
  rfl

/-- The generated sample batch has one perturbed image per mask row. -/
lemma sampleBatch_length (s : ImageSampler) (present : List Nat) (n : Nat)
    (rand : Nat → Nat → Nat) :
    (s.sampleBatch present n rand).length = n := by
  simp [ImageSampler.sampleBatch, ImageSampler.sampleData]

/-! ### Claim theorems -/

/-- C1: the claim states `Anchor.explain_instance` returns an Explanation
result; on the code the very first statement's attribute store on the
frozen dataclass raises `FrozenInstanceError` (after the sampler was
built, issuing one predict call), so the method never returns a result.
This theorem evaluates the code at a concrete failing input. -/
theorem C1_explain_raises :
    Anchor.explain_instance segC ⟨Tasktype.IMAGE, true⟩ inputC predictC
      = (Except.error PyErr.frozenInstanceError, 1) := rfl

/-- C4: one call of `ImageSampler.sample` issues exactly one batched
invocation of the predict function, and that single batch holds all
`num_samples` perturbed samples. -/
theorem C4_single_predict_call (s : ImageSampler) (present : List Nat) (n : Nat)
    (rand : Nat → Nat → Nat) :
    (s.sampleFull present n rand).2.2 = [s.sampleBatch present n rand]
    ∧ ((s.sampleFull present n rand).2.2).length = 1
    ∧ (s.sampleBatch present n rand).length = n :=
  ⟨rfl, rfl, sampleBatch_length s present n rand⟩

/-- C5 counterexample: on a malformed instance (4 channels) the
`ImageSampler` constructor fails with `AssertionError`, not with the
`InvalidInputError` the claim names. -/
theorem C5_counterexample :
    (ImageSampler.init segC inputBad predictC).1 = Except.error PyErr.assertionError
    ∧ (ImageSampler.init segC inputBad predictC).1 ≠ Except.error PyErr.invalidInputError := by
  refine ⟨rfl, fun h => ?_⟩
  rw [show (ImageSampler.init segC inputBad predictC).1
      = Except.error PyErr.assertionError from rfl] at h
  exact PyErr.noConfusion (Except.error.inj h)

/-- C5 amended: `ImageSampler` construction validates the channel count
and on any malformed instance fails immediately with `AssertionError`
(fatal, no retry), issuing no predict call; `AssertionError` is not the
`InvalidInputError` the specification names. -/
theorem C5_amended (segment : SegOracle) (input : Img2D) (predict_fn : PredictFn)
    (h : shape2 input ≠ 3) :
    (ImageSampler.init segment input predict_fn).1 = Except.error PyErr.assertionError
    ∧ (ImageSampler.init segment input predict_fn).2 = []
    ∧ PyErr.assertionError ≠ PyErr.invalidInputError := by
  refine ⟨?_, ?_, by decide⟩ <;> simp [ImageSampler.init, h]

theorem C5_amended_witness :
    (ImageSampler.init segC inputBad predictC).1 = Except.error PyErr.assertionError :=
  (C5_amended segC inputBad predictC (by decide)).1

/-- C7 counterexample: the defaults in the `__greedy_anchor` signature
are not `delta = 0.1`, `epsilon = 0.15`, `batch_size = 16`: the delta
and epsilon defaults differ. -/
theorem C7_counterexample :
    ¬ (greedyAnchorDefaults.delta = 0.1 ∧ greedyAnchorDefaults.epsilon = 0.15
        ∧ greedyAnchorDefaults.batch_size = 16) := by
  intro h
  have hd := h.1
  norm_num [greedyAnchorDefaults] at hd

/-- C7 amended: when the caller does not supply configuration values the
search signature defaults are `delta = 0.05`, `epsilon = 0.1` and
`batch_size = 16`. -/
theorem C7_amended :
    greedyAnchorDefaults.delta = 1/20 ∧ greedyAnchorDefaults.epsilon = 1/10
      ∧ greedyAnchorDefaults.batch_size = 16 := by
  norm_num [greedyAnchorDefaults]

/-- C8 counterexample: for the IMAGE task on a valid instance,
`Anchor.explain_instance` does raise `FrozenInstanceError` from the
frozen-field assignment, but only after the right-hand side was
evaluated, so one model query has already been issued — contradicting
the claim that no model query is ever made through this entry point. -/
theorem C8_counterexample :
    Anchor.explain_instance segC ⟨Tasktype.IMAGE, false⟩ inputC predictC
      = (Except.error PyErr.frozenInstanceError, 1)
    ∧ (1 : Nat) ≠ 0 := ⟨rfl, by decide⟩

/-- C8 amended: `Anchor.explain_instance` raises on every call and never
returns normally, but not always before a model query: the assignment's
right-hand side runs first, so for IMAGE on a valid instance the sampler
is constructed (one predict call) and then the store on the frozen
dataclass raises `FrozenInstanceError`; for TABULAR and TEXT the
subclass constructor itself raises `TypeError` with no predict call, and
for a malformed image instance construction raises `AssertionError` with
no predict call. -/
theorem C8_amended (segment : SegOracle) (a : Anchor) (input : Img2D)
    (predict_fn : PredictFn) :
    Anchor.explain_instance segment a input predict_fn =
      match a.tasktype with
      | Tasktype.TABULAR => (Except.error PyErr.typeError, 0)
      | Tasktype.TEXT => (Except.error PyErr.typeError, 0)
      | Tasktype.IMAGE =>
          if shape2 input = 3 then (Except.error PyErr.frozenInstanceError, 1)
          else (Except.error PyErr.assertionError, 0) := by
  obtain ⟨t, v⟩ := a
  cases t with
  | TABULAR => rfl
  | TEXT => rfl
  | IMAGE =>
      by_cases hc : shape2 input = 3 <;>
        simp [Anchor.explain_instance, Sampler.create, anchorRegistry, imageCtor,
          ImageSampler.init, hc, Except.map]

/-- C2 counterexample: the claim requires all three returned containers
to have length `num_samples`; on the concrete sampler the first returned
component is the fixed segmentation grid, whose length is the image
height (2), not the requested `num_samples = 3`. -/
theorem C2_counterexample :
    (ImageSampler.init segC inputC predictC).1 = Except.ok stateC
    ∧ ((ImageSampler.sampleFull stateC [] 3 randC).2.1.1).length = 2
    ∧ (2 : Nat) ≠ 3 := ⟨rfl, rfl, by decide⟩

/-- C2 amended: `ImageSampler.sample` returns a triple whose second
component is a `num_samples × n_features` binary mask with every
`present` column forced to 1, and whose third component is a binary
label-match vector of length `num_samples` (given the predict-function
contract of one score row per input); the first component is the fixed
segmentation structure from construction, not a length-`num_samples`
container.  The tabular and text samplers are unimplemented stubs
returning `None`. -/
theorem C2_amended (s : ImageSampler) (present : List Nat) (n : Nat)
    (rand : Nat → Nat → Nat)
    (hp : ∀ b, (s.predict_fn b).length = b.length) :
    (s.sampleFull present n rand).2.1.1 = s.segments
    ∧ ((s.sampleFull present n rand).2.1.2.1).length = n
    ∧ (∀ row ∈ (s.sampleFull present n rand).2.1.2.1,
        row.length = s.n_features ∧ ∀ x ∈ row, x = 0 ∨ x = 1)
    ∧ (∀ i j, i < n → j ∈ present → j < s.n_features →
        (((s.sampleFull present n rand).2.1.2.1).getD i []).getD j 0 = 1)
    ∧ ((s.sampleFull present n rand).2.1.2.2).length = n
    ∧ (∀ x ∈ (s.sampleFull present n rand).2.1.2.2, x = 0 ∨ x = 1)
    ∧ (∀ (α β : Type) (y : α) (f : α → β),
        TabularSampler.sample y f = none ∧ TextSampler.sample y f = none) := by
  have e1 : (s.sampleFull present n rand).2.1.2.1 = s.sampleData present n rand := rfl
  have e2 : (s.sampleFull present n rand).2.1.2.2
      = ((s.predict_fn (s.sampleBatch present n rand)).map idxOfMax).map
          (fun m => if m = s.label then (1 : Nat) else 0) := rfl
  refine ⟨rfl, ?_, ?_, ?_, ?_, ?_, fun α β y f => ⟨rfl, rfl⟩⟩
  · rw [e1]; simp [ImageSampler.sampleData]
  · rw [e1]
    intro row hrow
    simp only [ImageSampler.sampleData, List.mem_map, List.mem_range] at hrow
    obtain ⟨i, hi, rfl⟩ := hrow
    refine ⟨by simp, ?_⟩
    intro x hx
    simp only [List.mem_map, List.mem_range] at hx
    obtain ⟨j, hj, rfl⟩ := hx
    by_cases hjp : j ∈ present
    · right; rw [if_pos hjp]
    · rw [if_neg hjp]; exact Nat.mod_two_eq_zero_or_one _
  · intro i j hi hj hjf
    rw [e1]
    have hrow : (s.sampleData present n rand).getD i []
        = (List.range s.n_features).map
            (fun j' => if j' ∈ present then 1 else rand i j' % 2) :=
      getD_map_range _ [] hi
    rw [hrow, getD_map_range _ 0 hjf, if_pos hj]
  · rw [e2]; simp [List.length_map, hp, sampleBatch_length]
  · rw [e2]
    intro x hx
    simp only [List.mem_map] at hx
    obtain ⟨m, hm, rfl⟩ := hx
    by_cases hml : m = s.label
    · right; rw [if_pos hml]
    · left; rw [if_neg hml]

theorem C2_amended_witness :
    (((ImageSampler.sampleFull stateC [0] 3 randC).2.1.2.1).getD 1 []).getD 0 0 = 1 :=
  (C2_amended stateC [0] 3 randC (fun b => List.length_map b _)).2.2.2.1 1 0
    (by decide) (by decide) (by decide)

/-- C3: entry i of the label-match vector returned by
`ImageSampler.sample` is 1 exactly when the argmax class of the predict
scores on perturbed sample i equals the label stored at construction,
and 0 exactly otherwise (given the predict-function contract of one
score row per input). -/
theorem C3_label_match (s : ImageSampler) (present : List Nat) (n : Nat)
    (rand : Nat → Nat → Nat) (i : Nat)
    (hp : ∀ b, (s.predict_fn b).length = b.length) (hi : i < n) :
    (((s.sampleFull present n rand).2.1.2.2).getD i 2 = 1
      ↔ idxOfMax ((s.predict_fn (s.sampleBatch present n rand)).getD i []) = s.label)
    ∧ (((s.sampleFull present n rand).2.1.2.2).getD i 2 = 0
      ↔ idxOfMax ((s.predict_fn (s.sampleBatch present n rand)).getD i []) ≠ s.label) := by
  have hlen : (s.predict_fn (s.sampleBatch present n rand)).length = n := by
    rw [hp]; exact sampleBatch_length s present n rand
  have hi1 : i < (s.predict_fn (s.sampleBatch present n rand)).length := by
    rw [hlen]; exact hi
  have hi2 : i < ((s.predict_fn (s.sampleBatch present n rand)).map idxOfMax).length := by
    simpa using hi1
  have e2 : (s.sampleFull present n rand).2.1.2.2
      = ((s.predict_fn (s.sampleBatch present n rand)).map idxOfMax).map
          (fun m => if m = s.label then (1 : Nat) else 0) := rfl
  have key : ((s.sampleFull present n rand).2.1.2.2).getD i 2
      = if idxOfMax ((s.predict_fn (s.sampleBatch present n rand)).getD i []) = s.label
        then 1 else 0 := by
    rw [e2, getD_map_of_lt _ _ i 2 0 hi2, getD_map_of_lt idxOfMax _ i 0 [] hi1]
  refine ⟨?_, ?_⟩ <;> rw [key] <;>
    by_cases hml :
      idxOfMax ((s.predict_fn (s.sampleBatch present n rand)).getD i []) = s.label <;>
    simp [hml]

theorem C3_label_match_witness :
    ((ImageSampler.sampleFull stateC [] 2 randC).2.1.2.2).getD 0 2 = 1
      ↔ idxOfMax ((stateC.predict_fn (stateC.sampleBatch [] 2 randC)).getD 0 [])
          = stateC.label :=
  (C3_label_match stateC [] 2 randC 0 (fun b => List.length_map b _) (by decide)).1

/-- C6: the original instance's predicted label is computed exactly once
at construction — one predict call, on the singleton batch holding the
original instance, with the label its argmax — and is never recomputed:
the state after any `sample` call carries the same label, and the
returned label-match vector is computed by comparing against that
stored value. -/
theorem C6_label_fixed (segment : SegOracle) (input : Img2D) (predict_fn : PredictFn)
    (s : ImageSampler)
    (h : (ImageSampler.init segment input predict_fn).1 = Except.ok s) :
    s.label = idxOfMax ((predict_fn [flattenImg input]).headD [])
    ∧ (ImageSampler.init segment input predict_fn).2 = [[flattenImg input]]
    ∧ ∀ present n rand,
        ((s.sampleFull present n rand).1).label = s.label
        ∧ (s.sampleFull present n rand).2.1.2.2
            = (s.predict_fn (s.sampleBatch present n rand)).map
                (fun row => if idxOfMax row = s.label then (1 : Nat) else 0) := by
  by_cases hc : shape2 input = 3
  · simp only [ImageSampler.init, if_pos hc, Except.ok.injEq] at h
    subst h
    refine ⟨rfl, by simp [ImageSampler.init, hc], ?_⟩
    intro present n rand
    exact ⟨rfl, List.map_map _ _ _⟩
  · simp [ImageSampler.init, hc] at h

theorem C6_label_fixed_witness :
    stateC.label = idxOfMax ((predictC [flattenImg inputC]).headD []) :=
  (C6_label_fixed segC inputC predictC stateC rfl).1

/-- C9 counterexample: in src/Anchor/anchor.py the TABULAR subclass is
registered, yet `Sampler.create` for TABULAR does not construct and
return an instance: `TabularSampler` accepts no constructor arguments
(it defines no `__init__`), so the call raises `TypeError` — an error
distinct from the `ValueError` the dispatch reserves for unregistered
types. -/
theorem C9_counterexample :
    Sampler.create (anchorRegistry segC) Tasktype.TABULAR inputC predictC
      = (Except.error PyErr.typeError, 0)
    ∧ (anchorRegistry segC Tasktype.TABULAR).isSome = true
    ∧ PyErr.typeError ≠ PyErr.valueError := ⟨rfl, rfl, by decide⟩

/-- C9 amended: both factories raise `ValueError` exactly when the given
Tasktype has no registered subclass and otherwise return the registered
constructor's result, so the two dispatch decisions are behaviorally
equivalent; but the constructor's result need not be an instance: with
anchor.py's registry, `create` never raises `ValueError`, yet for
TABULAR and TEXT it raises `TypeError` because those classes accept no
constructor arguments. -/
theorem C9_amended :
    (∀ (reg : Tasktype → Option Ctor) (t : Tasktype) (input : Img2D)
        (predict_fn : PredictFn),
      (reg t = none →
        Sampler.create reg t input predict_fn = (Except.error PyErr.valueError, 0))
      ∧ (∀ c, reg t = some c →
        Sampler.create reg t input predict_fn = c input predict_fn))
    ∧ (∀ (π : Type)
        (reg : Tasktype → Option (Img2D → PredictFn → π → Except PyErr SamplerInst × Nat))
        (t : Tasktype) (input : Img2D) (predict_fn : PredictFn) (ts : π),
      (reg t = none →
        IanchorSampler.create reg t input predict_fn ts = (Except.error PyErr.valueError, 0))
      ∧ (∀ c, reg t = some c →
        IanchorSampler.create reg t input predict_fn ts = c input predict_fn ts))
    ∧ (∀ (π : Type) (reg : Tasktype → Option Ctor) (t : Tasktype) (input : Img2D)
        (predict_fn : PredictFn) (ts : π),
      IanchorSampler.create (liftReg reg) t input predict_fn ts
        = Sampler.create reg t input predict_fn)
    ∧ (∀ (segment : SegOracle) (t : Tasktype) (input : Img2D) (predict_fn : PredictFn),
      (Sampler.create (anchorRegistry segment) t input predict_fn).1
        ≠ Except.error PyErr.valueError)
    ∧ (∀ (segment : SegOracle) (input : Img2D) (predict_fn : PredictFn),
      Sampler.create (anchorRegistry segment) Tasktype.TABULAR input predict_fn
        = (Except.error PyErr.typeError, 0)
      ∧ Sampler.create (anchorRegistry segment) Tasktype.TEXT input predict_fn
        = (Except.error PyErr.typeError, 0)) := by
  refine ⟨?_, ?_, ?_, ?_, ?_⟩
  · intro reg t input predict_fn
    exact ⟨fun h => by simp [Sampler.create, h],
      fun c h => by simp [Sampler.create, h]⟩
  · intro π reg t input predict_fn ts
    exact ⟨fun h => by simp [IanchorSampler.create, h],
      fun c h => by simp [IanchorSampler.create, h]⟩
  · intro π reg t input predict_fn ts
    cases hr : reg t <;> simp [IanchorSampler.create, Sampler.create, liftReg, hr]
  · intro segment t input predict_fn
    cases t with
    | TABULAR => intro h; exact PyErr.noConfusion (Except.error.inj h)
    | TEXT => intro h; exact PyErr.noConfusion (Except.error.inj h)
    | IMAGE =>
        by_cases hc : shape2 input = 3 <;>
          simp [Sampler.create, anchorRegistry, imageCtor, ImageSampler.init, hc,
            Except.map]
  · intro segment input predict_fn
    exact ⟨rfl, rfl⟩

theorem C9_amended_witness :
    Sampler.create (fun _ => none) Tasktype.TABULAR inputC predictC
      = (Except.error PyErr.valueError, 0) :=
  (C9_amended.1 (fun _ => none) Tasktype.TABULAR inputC predictC).1 rfl

/-- C10: `ImageSampler.sample` never mutates the sampler's state — the
object after the call is the object before it, so the fields label,
segments, n_features, sp_image, image and predict_fn are unchanged —
and the first returned component is always the segmentation computed
once at construction by the segmentation call. -/
theorem C10_sample_pure (segment : SegOracle) (input : Img2D) (predict_fn : PredictFn)
    (s : ImageSampler)
    (h : (ImageSampler.init segment input predict_fn).1 = Except.ok s)
    (present : List Nat) (n : Nat) (rand : Nat → Nat → Nat) :
    (s.sampleFull present n rand).1 = s
    ∧ (s.sampleFull present n rand).2.1.1 = s.segments
    ∧ s.segments = segment input := by
  refine ⟨rfl, rfl, ?_⟩
  by_cases hc : shape2 input = 3
  · simp only [ImageSampler.init, if_pos hc, Except.ok.injEq] at h
    subst h
    rfl
  · simp [ImageSampler.init, hc] at h

theorem C10_sample_pure_witness :
    (ImageSampler.sampleFull stateC [0] 2 randC).1 = stateC :=
  (C10_sample_pure segC inputC predictC stateC rfl [0] 2 randC).1
